import Mathlib

/-!
Verification of the intern-generator timeline logic.

This file gives a shallow embedding of the repository's two source files:

* `src/groq-deploy/app.py` — the Streamlit session-state timeline: the
  session defaults, the pending-action handlers (`regenerate`, `continue_1`,
  `continue_n`), the initial-generation handler, the timeline reset, and the
  `run_generation` result convention (an exception or an empty accumulated
  stream both yield `None`, a non-empty accumulated text yields itself).
* `src/generator.py` — the pure prompt-building layer: the static
  discipline-guidance mapping, the output-format template, the prompt
  closer, the context helpers and the single/set prompt builders, plus
  `get_available_models`.

Stateful Streamlit code is modelled as explicit state passing: each handler
maps the pre-call session state to the `GenRequest` it issues and a function
from the generation outcome (`Option String`) to the post-call state.
-/

namespace InternGen

/-- The arguments `app.py` passes to `run_generation` (and through it to
`generate_events`) for one generation call: mode key, discipline, number of
weeks, starting week, previous-events text and feedback text. -/
structure GenRequest where
  mode : String
  discipline : Option String
  weeks : Nat
  start_week : Int
  previous : Option String
  feedback : Option String
deriving DecidableEq

/-- The Streamlit session-state fields of `app.py` that the timeline logic
reads and writes (the `DEFAULTS` dictionary, minus the pending-action slot,
which is modelled by passing each action's parameters explicitly). -/
structure AppState where
  event_history : List String
  week_counter : Int
  last_mode : Option String
  last_discipline : Option String
  last_weeks : Nat
deriving DecidableEq

/-- The session-state defaults of `app.py` (`DEFAULTS`). -/
def initialState : AppState :=
  { event_history := []
    week_counter := 0
    last_mode := none
    last_discipline := none
    last_weeks := 1 }

/-- The result convention of `run_generation` in `app.py`: an exception while
streaming returns `None`; otherwise the accumulated text is returned when
non-empty and `None` when the stream yielded no text
(`return full_response if full_response else None`). -/
def run_generation (outcome : Except Unit String) : Option String :=
  match outcome with
  | Except.error _ => none
  | Except.ok t => if t = "" then none else some t

/-- The `regenerate` pending-action handler of `app.py`: pops the last
history entry, subtracts `last_weeks` from the week counter, rebuilds the
previous-events text from the shortened history, issues a request with the
remembered mode/discipline/weeks and the supplied feedback, and on success
appends the result and re-adds the weeks. On failure nothing is re-added:
the popped text (`last_text` in the source) is never restored. -/
def regenerate_handler (s : AppState) (fb : Option String) :
    GenRequest × (Option String → AppState) :=
  let m := s.last_mode.getD "single"
  let d := s.last_discipline
  let history1 := s.event_history.dropLast
  let counter1 := s.week_counter - s.last_weeks
  let start_week := counter1 + 1
  let weeks := s.last_weeks
  let previous :=
    if history1.isEmpty then none else some (String.intercalate "\n\n" history1)
  let req : GenRequest :=
    { mode := m, discipline := d, weeks := weeks, start_week := start_week
      previous := previous, feedback := fb }
  (req, fun result =>
    match result with
    | some r =>
        { s with event_history := history1 ++ [r], week_counter := counter1 + weeks }
    | none =>
        { s with event_history := history1, week_counter := counter1 })

/-- The `continue_1` pending-action handler of `app.py`: issues a one-week
request with the remembered mode/discipline, the joined history as previous
events and the supplied feedback; on success appends the result, increments
the week counter by one and sets `last_weeks := 1`. -/
def continue_1_handler (s : AppState) (fb : Option String) :
    GenRequest × (Option String → AppState) :=
  let m := s.last_mode.getD "single"
  let d := s.last_discipline
  let start_week := s.week_counter + 1
  let previous := some (String.intercalate "\n\n" s.event_history)
  let req : GenRequest :=
    { mode := m, discipline := d, weeks := 1, start_week := start_week
      previous := previous, feedback := fb }
  (req, fun result =>
    match result with
    | some r =>
        { s with event_history := s.event_history ++ [r]
                 week_counter := s.week_counter + 1
                 last_weeks := 1 }
    | none => s)

/-- The `continue_n` pending-action handler of `app.py`: like `continue_1`
but for `n` weeks, upgrading the remembered mode from `"single"` to `"set"`
(`if m == "single": m = "set"`); on success appends the result, adds `n`
to the week counter, and records `last_weeks := n` and the (possibly
upgraded) mode. -/
def continue_n_handler (s : AppState) (fb : Option String) (n : Nat) :
    GenRequest × (Option String → AppState) :=
  let m0 := s.last_mode.getD "single"
  let m := if m0 = "single" then "set" else m0
  let d := s.last_discipline
  let start_week := s.week_counter + 1
  let previous := some (String.intercalate "\n\n" s.event_history)
  let req : GenRequest :=
    { mode := m, discipline := d, weeks := n, start_week := start_week
      previous := previous, feedback := fb }
  (req, fun result =>
    match result with
    | some r =>
        { s with event_history := s.event_history ++ [r]
                 week_counter := s.week_counter + n
                 last_weeks := n
                 last_mode := some m }
    | none => s)

/-- The initial-generation handler of `app.py` (the no-history branch):
issues a request with `start_week = 1` and no previous events or feedback;
on success appends the result, adds `num_weeks` to the week counter and
records the mode, discipline and weeks. -/
def initial_generation_handler (s : AppState) (mode_key : String)
    (discipline : Option String) (num_weeks : Nat) :
    GenRequest × (Option String → AppState) :=
  let req : GenRequest :=
    { mode := mode_key, discipline := discipline, weeks := num_weeks
      start_week := 1, previous := none, feedback := none }
  (req, fun result =>
    match result with
    | some r =>
        { s with event_history := s.event_history ++ [r]
                 week_counter := s.week_counter + num_weeks
                 last_mode := some mode_key
                 last_discipline := discipline
                 last_weeks := num_weeks }
    | none => s)

/-- The `Reset Timeline` handler of `app.py`: restores every session field
to its default. -/
def reset_handler (s : AppState) : AppState :=
  { s with event_history := []
           week_counter := 0
           last_mode := none
           last_discipline := none
           last_weeks := 1 }

/-- The spec's `HistoryEntry`: one committed generation result with the
number of weeks it represents, instrumented with the mode and discipline of
the request that produced it (the code stores only the text; the weeks,
mode and discipline are the ghost data that the spec's Timeline carries). -/
structure HistoryEntry where
  text : String
  weeks : Nat
  mode : String
  discipline : Option String
deriving DecidableEq

/-- Total number of weeks represented by a list of committed entries. -/
def sumWeeks (g : List HistoryEntry) : Nat :=
  (g.map HistoryEntry.weeks).sum

/-- One user-level operation on the timeline, carrying the generation
outcome (`some text` on success, `none` on a failed or empty stream). -/
inductive Op where
  | initial (mode_key : String) (discipline : Option String)
      (num_weeks : Nat) (res : Option String)
  | continue1 (fb : Option String) (res : Option String)
  | continueN (fb : Option String) (n : Nat) (res : Option String)
  | regenerate (fb : Option String) (res : Option String)
  | reset
deriving DecidableEq

/-- Whether the operation's generation call succeeded (`reset` needs no
call and always succeeds). -/
def Op.isSuccess : Op → Bool
  | .initial _ _ _ res => res.isSome
  | .continue1 _ res => res.isSome
  | .continueN _ _ res => res.isSome
  | .regenerate _ res => res.isSome
  | .reset => true

/-- The session state together with the ghost list of committed entries. -/
structure Sim where
  app : AppState
  entries : List HistoryEntry
deriving DecidableEq

/-- One step of the app: the guards mirror `app.py`'s page structure (the
pending-action block runs only when `event_history` is non-empty, the
initial-generation block only when it is empty; an operation whose guard
fails is rejected before any service call and changes nothing). The ghost
entries record, per committed text, the weeks/mode/discipline of the request
that produced it. -/
def stepOp (t : Sim) : Op → Sim
  | .initial mk d w res =>
      if t.app.event_history.isEmpty then
        let h := initial_generation_handler t.app mk d w
        match res with
        | some r => ⟨h.2 (some r), t.entries ++ [⟨r, w, mk, d⟩]⟩
        | none => ⟨h.2 none, t.entries⟩
      else t
  | .continue1 fb res =>
      if t.app.event_history.isEmpty then t else
        let h := continue_1_handler t.app fb
        match res with
        | some r => ⟨h.2 (some r), t.entries ++ [⟨r, 1, h.1.mode, h.1.discipline⟩]⟩
        | none => ⟨h.2 none, t.entries⟩
  | .continueN fb n res =>
      if t.app.event_history.isEmpty then t else
        let h := continue_n_handler t.app fb n
        match res with
        | some r => ⟨h.2 (some r), t.entries ++ [⟨r, n, h.1.mode, h.1.discipline⟩]⟩
        | none => ⟨h.2 none, t.entries⟩
  | .regenerate fb res =>
      if t.app.event_history.isEmpty then t else
        let h := regenerate_handler t.app fb
        match res with
        | some r =>
            ⟨h.2 (some r),
             t.entries.dropLast ++ [⟨r, t.app.last_weeks, h.1.mode, h.1.discipline⟩]⟩
        | none => ⟨h.2 none, t.entries.dropLast⟩
  | .reset => ⟨reset_handler t.app, []⟩

/-- Run a sequence of operations from the session defaults. -/
def runOps (ops : List Op) : Sim :=
  ops.foldl stepOp ⟨initialState, []⟩

/-- The remembered `last_weeks` / `last_mode` / `last_discipline` fields
agree with the most recently committed entry (vacuous on an empty
timeline). -/
def lastCompat (a : AppState) : Option HistoryEntry → Prop
  | none => True
  | some e => a.last_weeks = e.weeks ∧ a.last_mode = some e.mode ∧
      a.last_discipline = e.discipline

instance (a : AppState) (o : Option HistoryEntry) : Decidable (lastCompat a o) :=
  match o with
  | none => isTrue trivial
  | some _ => inferInstanceAs (Decidable (_ ∧ _ ∧ _))

/-- The timeline invariant: the session history is exactly the committed
texts in order, the week counter is the sum of the committed weeks, and the
remembered last-generation fields agree with the last committed entry. -/
def Inv (t : Sim) : Prop :=
  t.app.event_history = t.entries.map HistoryEntry.text ∧
  t.app.week_counter = (sumWeeks t.entries : Int) ∧
  lastCompat t.app t.entries.getLast?

instance (t : Sim) : Decidable (Inv t) := by
  unfold Inv
  infer_instance

theorem sumWeeks_append (l : List HistoryEntry) (e : HistoryEntry) :
    sumWeeks (l ++ [e]) = sumWeeks l + e.weeks := by
  simp [sumWeeks]

theorem inv_stepOp (t : Sim) (op : Op) (h : Inv t) (hs : op.isSuccess = true) :
    Inv (stepOp t op) := by
  obtain ⟨h1, h2, h3⟩ := h
  cases op with
  | reset => exact ⟨rfl, rfl, trivial⟩
  | initial mk d w res =>
      cases res with
      | none => simp [Op.isSuccess] at hs
      | some r =>
          by_cases he : t.app.event_history.isEmpty = true
          · have hh : t.app.event_history = [] := List.isEmpty_iff.mp he
            have hnil : t.entries = [] := by
              rw [hh] at h1
              exact (List.map_eq_nil_iff.mp h1.symm)
            have hc : t.app.week_counter = 0 := by
              rw [h2, hnil]; rfl
            simp only [stepOp, if_pos he, initial_generation_handler]
            refine ⟨?_, ?_, ?_⟩
            · simp [hnil, hh]
            · simp [hnil, hc, sumWeeks]
            · simp [hnil, lastCompat]
          · simp only [stepOp, if_neg he]
            exact ⟨h1, h2, h3⟩
  | continue1 fb res =>
      cases res with
      | none => simp [Op.isSuccess] at hs
      | some r =>
          by_cases he : t.app.event_history.isEmpty = true
          · simp only [stepOp, if_pos he]
            exact ⟨h1, h2, h3⟩
          · have hne : t.entries ≠ [] := by
              intro hn
              rw [hn] at h1
              simp [h1] at he
            have hlast := List.getLast?_eq_getLast_of_ne_nil hne
            rw [hlast] at h3
            obtain ⟨hw, hm, hd⟩ := h3
            simp only [stepOp, if_neg he, continue_1_handler]
            refine ⟨?_, ?_, ?_⟩
            · simp [h1]
            · rw [sumWeeks_append]
              simp [h2]
            · simp [lastCompat, List.getLast?_concat, hm, hd]
  | continueN fb n res =>
      cases res with
      | none => simp [Op.isSuccess] at hs
      | some r =>
          by_cases he : t.app.event_history.isEmpty = true
          · simp only [stepOp, if_pos he]
            exact ⟨h1, h2, h3⟩
          · simp only [stepOp, if_neg he, continue_n_handler]
            refine ⟨?_, ?_, ?_⟩
            · simp [h1]
            · rw [sumWeeks_append]
              simp [h2]
            · simp [lastCompat, List.getLast?_concat]
  | regenerate fb res =>
      cases res with
      | none => simp [Op.isSuccess] at hs
      | some r =>
          by_cases he : t.app.event_history.isEmpty = true
          · simp only [stepOp, if_pos he]
            exact ⟨h1, h2, h3⟩
          · have hne : t.entries ≠ [] := by
              intro hn
              rw [hn] at h1
              simp [h1] at he
            have hlast := List.getLast?_eq_getLast_of_ne_nil hne
            rw [hlast] at h3
            obtain ⟨hw, hm, hd⟩ := h3
            have hsplit : t.entries.dropLast ++ [t.entries.getLast hne] = t.entries :=
              List.dropLast_append_getLast hne
            have hsum : sumWeeks t.entries =
                sumWeeks t.entries.dropLast + (t.entries.getLast hne).weeks := by
              conv_lhs => rw [← hsplit]
              rw [sumWeeks_append]
            simp only [stepOp, if_neg he, regenerate_handler]
            refine ⟨?_, ?_, ?_⟩
            · simp [h1, List.map_dropLast]
            · rw [sumWeeks_append]
              simp only [h2, hsum, hw]
              push_cast
              ring
            · simp [lastCompat, List.getLast?_concat, hm, hd]

theorem inv_foldl (ops : List Op) (t : Sim) (h : Inv t)
    (hs : ops.all Op.isSuccess = true) : Inv (ops.foldl stepOp t) := by
  induction ops generalizing t with
  | nil => exact h
  | cons op rest ih =>
      rw [List.all_cons, Bool.and_eq_true] at hs
      exact ih (stepOp t op) (inv_stepOp t op h hs.1) hs.2

theorem inv_runOps (ops : List Op) (hs : ops.all Op.isSuccess = true) :
    Inv (runOps ops) :=
  inv_foldl ops ⟨initialState, []⟩ ⟨rfl, rfl, trivial⟩ hs

/-- `get_available_models` from `generator.py`, over the outcome of the
model-listing call (`Except.error` when `ollama.list()` raises, otherwise
the listed model names): any retrieval exception and an empty listing both
fall back to `["llama3.2"]`. -/
def get_available_models (response : Except Unit (List String)) : List String :=
  match response with
  | Except.error _ => ["llama3.2"]
  | Except.ok models => if models.isEmpty then ["llama3.2"] else models

/-- `DISCIPLINE_GUIDANCE` from `generator.py`: the static mapping from
discipline name to guidance text. -/
def DISCIPLINE_GUIDANCE : List (String × String) :=
  [("Business",
    "The Business intern is an INTELLIGENCE ANALYST. Their role is to " ++
    "receive intelligence briefings — fabricated but realistic events " ++
    "happening in the world — and analyze their significance to the project.\n\n" ++
    "CRITICAL: You MUST invent specific, detailed, fictional intelligence. " ++
    "Make up concrete details:\n" ++
    "- Specific dates (e.g., 'On February 3rd...')\n" ++
    "- Specific places (e.g., 'the port of Djibouti', 'the Strait of Malacca', " ++
    "'a facility outside Volgograd')\n" ++
    "- Specific organizations, vessels, units, or actors (invent names)\n" ++
    "- Specific numbers and measurements (e.g., '14 vessels', '37%% increase', " ++
    "'an estimated 2,400 metric tons')\n" ++
    "- Specific sources (e.g., 'commercial satellite imagery from January 28th', " ++
    "'intercepted communications', 'a leaked internal memo', 'OSINT forums', " ++
    "'a classified SIGINT report')\n\n" ++
    "The scenario should read like an intelligence cable or situational " ++
    "report — not a vague business brief. It should feel like something " ++
    "landed on the analyst's desk that morning.\n\n" ++
    "Examples of the KIND of event to generate (adapt to the project):\n" ++
    "- 'On January 15th, commercial satellite imagery captured 14 previously " ++
    "untracked cargo vessels clustered near the port of Berbera, Somalia. " ++
    "AIS data shows these vessels went dark 72 hours prior. Regional HUMINT " ++
    "assets report increased activity at a nearby warehouse complex.'\n" ++
    "- 'An intercepted communication between two known logistics firms " ++
    "references a shipment of dual-use components scheduled to transit " ++
    "through the Suez Canal on March 2nd. The manifest lists industrial " ++
    "generators, but the weight discrepancy suggests additional cargo.'\n" ++
    "- 'OSINT monitoring flagged a series of forum posts on a Telegram " ++
    "channel associated with maritime security. Multiple sources claim " ++
    "a new patrol route has been established off the coast of Yemen " ++
    "starting this month, contradicting official statements.'\n" ++
    "- 'A leaked budget document from a regional defense ministry shows " ++
    "a 340%% increase in procurement spending for coastal surveillance " ++
    "equipment over the past fiscal quarter.'\n\n" ++
    "The intern must figure out the 'so what?' — why it matters, what " ++
    "caused it, what it means for the project, and what to recommend. " ++
    "Do NOT provide the analysis. Present the raw intelligence and let " ++
    "the intern work."),
   ("Systems Engineer",
    "The Systems Engineer intern works within a MODEL-BASED SYSTEMS ENGINEERING " ++
    "(MBSE) framework. Their events should present situations where the system " ++
    "model, architecture, or requirements need attention because of something " ++
    "that happened:\n\n" ++
    "Examples of the KIND of event to generate (adapt to the project):\n" ++
    "- 'The business team's analysis of the Somalia shipping activity suggests " ++
    "we need to handle 3x more data throughput than originally modeled. The " ++
    "current system architecture may not support this.'\n" ++
    "- 'A stakeholder review revealed that two subsystem interfaces are " ++
    "specifying conflicting data formats — one expects JSON, the other XML.'\n" ++
    "- 'The new compliance requirement identified by the business team " ++
    "needs to be traced through the system model to identify which " ++
    "components are affected.'\n" ++
    "- 'Testing found that the system's response time requirement (REQ-042) " ++
    "has no verification method defined in the model.'\n" ++
    "- 'A design review is in two weeks and the SysML activity diagrams " ++
    "for the alert processing pipeline do not reflect the latest changes.'\n\n" ++
    "Events should reflect MBSE thinking: model-driven, requirements-traceable, " ++
    "and focused on systems, interfaces, and traceability. When generated " ++
    "alongside Business events, the SE event should be a direct consequence " ++
    "of what Business discovered."),
   ("Developer",
    "The Developer intern builds features and capabilities driven by project " ++
    "needs. Their events should present situations where new functionality " ++
    "is needed or existing code needs to change because of something happening " ++
    "on the project:\n\n" ++
    "Examples of the KIND of event to generate (adapt to the project):\n" ++
    "- 'The systems engineer has updated the architecture to handle the " ++
    "increased data throughput from the Somalia shipping activity. A new " ++
    "notification system needs to be built to alert analysts when activity " ++
    "spikes are detected.'\n" ++
    "- 'The interface conflict between subsystems means the data ingestion " ++
    "module needs a format adapter. The SE has provided updated ICDs.'\n" ++
    "- 'The new compliance requirement means we need to add audit logging " ++
    "to every API endpoint that touches sensitive data.'\n" ++
    "- 'Performance testing shows the dashboard query takes 12 seconds on " ++
    "large datasets. Users need it under 2 seconds.'\n" ++
    "- 'A teammate started building the alert pipeline but had to switch " ++
    "to another project. Their branch has partial work that needs to be " ++
    "picked up and completed.'\n\n" ++
    "Events should be about BUILDING or CHANGING things — new features, " ++
    "integrations, fixes, or improvements. When generated alongside SE " ++
    "events, the Developer event should stem from what the SE designed " ++
    "or discovered. Not every event requires code, but most should.")]

/-- `EVENT_FORMAT` from `generator.py`: the literal output-format template. -/
def EVENT_FORMAT : String :=
  "Format each event using this structure:\n\n" ++
  "## Week N: [Short, descriptive title]\n\n" ++
  "**Discipline:** [Business / Systems Engineer / Developer]\n\n" ++
  "**Scenario:**\n" ++
  "[Describe what happened or what situation has arisen. Write this as if " ++
  "the intern is being briefed about something that just occurred — an " ++
  "observation, a discovery, a change, a problem, or an opportunity. " ++
  "Be SPECIFIC: use concrete details, numbers, names of systems, real-world " ++
  "references grounded in the project context. Do NOT tell the intern what " ++
  "to do or how to solve it. Present the situation and let them figure out " ++
  "the response. One to three paragraphs.]\n\n" ++
  "**Deliverables:**\n" ++
  "- [What the intern needs to produce or present by end of week]\n" ++
  "- [Keep these outcome-focused, not step-by-step instructions]\n\n" ++
  "---\n\n" ++
  "Rules:\n" ++
  "- Do NOT include tasks, steps, solutions, or hints.\n" ++
  "- The scenario should read like a real event that triggers action.\n" ++
  "- Deliverables describe WHAT is needed, not HOW to do it.\n" ++
  "- Separate events with a horizontal rule (---).\n" ++
  "- Do not use emojis. Use plain, professional language."

/-- `PROMPT_CLOSER` from `generator.py`: appended to the end of every user
prompt. -/
def PROMPT_CLOSER : String :=
  "\n\nIMPORTANT: Do NOT ask any questions. Do NOT add any introduction, " ++
  "commentary, or explanation. You have everything you need above. " ++
  "Begin your response IMMEDIATELY with '## Week' and generate the events. " ++
  "Your very first characters must be '## Week'."

/-- Rendering of an optional string the way a Python f-string renders it
(`None` prints as the four characters `None`). -/
def pyShowOpt : Option String → String
  | none => "None"
  | some s => s

/-- Python truthiness of an optional string: `None` and the empty string
are falsy. -/
def pyTruthy : Option String → Bool
  | none => false
  | some s => s ≠ ""

/-- `DISCIPLINE_GUIDANCE.get(discipline, "")` from `generator.py`: an absent
key (including `None`) yields the empty string. -/
def guidanceFor (discipline : Option String) : String :=
  match discipline with
  | none => ""
  | some k => (DISCIPLINE_GUIDANCE.lookup k).getD ""

/-- `_add_previous_events_context` from `generator.py`. -/
def add_previous_events_context (prompt : String) (previous_events : Option String) :
    String :=
  if pyTruthy previous_events then
    prompt ++
    "\n\n--- PREVIOUS EVENTS ---\n" ++
    "The following events have already occurred on this project. " ++
    "Your new event(s) MUST build on, reference, or be a consequence " ++
    "of what has already happened. Do not repeat previous events. " ++
    "Advance the project timeline forward.\n\n" ++
    (previous_events.getD "") ++ "\n" ++
    "--- END PREVIOUS EVENTS ---\n"
  else prompt

/-- `_add_feedback_context` from `generator.py` (`if feedback and
feedback.strip()`: the stripped feedback is appended). -/
def add_feedback_context (prompt : String) (feedback : Option String) : String :=
  if pyTruthy feedback && pyTruthy (feedback.map String.trim) then
    prompt ++
    "\n\n--- FEEDBACK ---\n" ++
    "The facilitator has provided the following feedback. " ++
    "Take this into account when generating the event(s):\n\n" ++
    ((feedback.getD "").trim) ++ "\n" ++
    "--- END FEEDBACK ---\n"
  else prompt

/-- The body of `_build_single_event_prompt` from `generator.py`, with the
locally computed `guidance` string abstracted as a parameter. -/
def build_single_event_prompt_core (project_description : String)
    (discipline : Option String) (guidance : String)
    (codebase_context previous_events feedback : Option String)
    (week_number : Option Int) : String :=
  let week_label :=
    match week_number with
    | some n => if n = 0 then "a week" else "Week " ++ toString n
    | none => "a week"
  let prompt :=
    "Generate EXACTLY ONE event — a single event — for " ++ week_label ++ " " ++
    "for an intern in the '" ++ pyShowOpt discipline ++ "' discipline. ONLY '" ++
    pyShowOpt discipline ++ "' " ++
    "— do not generate events for any other discipline.\n\n" ++
    "OUTPUT EXACTLY ONE EVENT. Do NOT generate a second event. " ++
    "Do NOT generate Week 2 or any continuation. ONE event only. " ++
    "Stop after the first horizontal rule (---).\n\n" ++
    "--- PROJECT README ---\n" ++ project_description ++ "\n--- END README ---\n\n" ++
    "Discipline guidance for " ++ pyShowOpt discipline ++ ":\n" ++ guidance ++ "\n\n" ++
    EVENT_FORMAT
  let prompt := add_previous_events_context prompt previous_events
  let prompt := add_feedback_context prompt feedback
  let prompt :=
    if pyTruthy codebase_context then
      prompt ++
      "\n\nThe following codebase files are available as context. " ++
      "Reference them if relevant, but the event does not have to " ++
      "involve code.\n\n" ++ (codebase_context.getD "")
    else prompt
  prompt ++ PROMPT_CLOSER ++ " Generate ONLY ONE event. Stop after the --- separator."

/-- `_build_single_event_prompt` from `generator.py`
(`guidance = DISCIPLINE_GUIDANCE.get(discipline, "")`). -/
def build_single_event_prompt (project_description : String)
    (discipline : Option String)
    (codebase_context previous_events feedback : Option String)
    (week_number : Option Int) : String :=
  build_single_event_prompt_core project_description discipline
    (guidanceFor discipline) codebase_context previous_events feedback week_number

/-- The body of `_build_set_prompt` from `generator.py`, with the locally
computed `guidance` string abstracted as a parameter. -/
def build_set_prompt_core (project_description : String)
    (discipline : Option String) (guidance : String) (num_weeks : Nat)
    (codebase_context previous_events feedback : Option String)
    (start_week : Int) : String :=
  let end_week := start_week + num_weeks - 1
  let prompt :=
    "Generate a set of " ++ toString num_weeks ++ " weekly events (Week " ++
    toString start_week ++ " through " ++
    "Week " ++ toString end_week ++ ") for an intern in the '" ++
    pyShowOpt discipline ++ "' discipline. " ++
    "ONLY '" ++ pyShowOpt discipline ++
    "' — do not generate events for any other discipline. " ++
    "Every event must have **Discipline:** " ++ pyShowOpt discipline ++ ".\n\n" ++
    "--- PROJECT README ---\n" ++ project_description ++ "\n--- END README ---\n\n" ++
    "Discipline guidance for " ++ pyShowOpt discipline ++ ":\n" ++ guidance ++ "\n\n" ++
    "The events must form a continuous narrative over " ++ toString num_weeks ++
    " weeks. " ++
    "Later events should be consequences of, or build on, earlier ones. " ++
    "The project is alive — things happen because of what came before.\n\n" ++
    EVENT_FORMAT
  let prompt := add_previous_events_context prompt previous_events
  let prompt := add_feedback_context prompt feedback
  let prompt :=
    if pyTruthy codebase_context then
      prompt ++
      "\n\nThe following codebase files are available as context. " ++
      "Reference them if relevant to developer events, but not every " ++
      "event needs to involve code.\n\n" ++ (codebase_context.getD "")
    else prompt
  prompt ++ PROMPT_CLOSER

/-- `_build_set_prompt` from `generator.py`
(`guidance = DISCIPLINE_GUIDANCE.get(discipline, "")`). -/
def build_set_prompt (project_description : String) (discipline : Option String)
    (num_weeks : Nat) (codebase_context previous_events feedback : Option String)
    (start_week : Int) : String :=
  build_set_prompt_core project_description discipline (guidanceFor discipline)
    num_weeks codebase_context previous_events feedback start_week

/-- A concrete timeline used as a witness input: an initial single-mode
generation E1 (one week) followed by a two-week set continuation E2, so
`week_counter = 3` and `last_weeks = 2`. -/
def sampleSim : Sim :=
  ⟨{ event_history := ["E1", "E2"], week_counter := 3, last_mode := some "set"
     last_discipline := some "Business", last_weeks := 2 },
   [⟨"E1", 1, "single", some "Business"⟩, ⟨"E2", 2, "set", some "Business"⟩]⟩

/-- A concrete session state used as a witness input: one committed one-week
single-mode generation. -/
def sampleState : AppState :=
  { event_history := ["E1"], week_counter := 1, last_mode := some "single"
    last_discipline := some "Developer", last_weeks := 1 }

/-- A concrete all-successful operation sequence used as a witness input:
initial single-event generation, a two-week continuation, a regenerate, a
one-week continuation, a reset, and a fresh four-week all-disciplines
generation. -/
def sampleOps : List Op :=
  [Op.initial "single" (some "Business") 1 (some "E1"),
   Op.continueN none 2 (some "E2"),
   Op.regenerate (some "make it harder") (some "E2b"),
   Op.continue1 none (some "E3"),
   Op.reset,
   Op.initial "all" none 4 (some "F1")]

/-- C1: the claim is violated by the code — evaluating the regenerate
handler on the timeline [E1 (1 week), E2 (2 weeks)] with week_counter 3,
when the generation stream completes with zero accumulated text, leaves
event_history = [E1] and week_counter = 1: the popped entry E2 is gone and
the Timeline has shrunk (the source stores the popped text in the unused
variable `last_text` and never re-appends it). -/
theorem regenerate_failure_loses_entry :
    (regenerate_handler
        { event_history := ["E1", "E2"], week_counter := 3, last_mode := some "set"
          last_discipline := some "Business", last_weeks := 2 }
        (some "make it harder")).2 (run_generation (Except.ok "")) =
      { event_history := ["E1"], week_counter := 1, last_mode := some "set"
        last_discipline := some "Business", last_weeks := 2 } := by
  decide

/-- C2: for every sequence of successful operations starting from the empty
Timeline, week_counter equals the sum of the weeks counts of all committed
entries (the statement quantifies over all successful sequences, so it holds
at every observation point of any such run). -/
theorem week_counter_invariant (ops : List Op)
    (hs : ops.all Op.isSuccess = true) :
    (runOps ops).app.week_counter = (sumWeeks (runOps ops).entries : Int) :=
  (inv_runOps ops hs).2.1

theorem week_counter_invariant_witness :
    sampleOps.all Op.isSuccess = true ∧
    (runOps sampleOps).app.week_counter =
      (sumWeeks (runOps sampleOps).entries : Int) :=
  ⟨by decide, week_counter_invariant sampleOps (by decide)⟩

/-- C3: the claim is violated by the code — a generation-service exception
mid-stream during a regenerate leaves event_history and week_counter
different from their pre-call values (the popped entry is not restored), so
a failing operation does not always leave the state identical. For the
continue and initial operations the handlers do leave the state unchanged
on failure, but regenerate does not. -/
theorem failed_regenerate_mutates_state :
    (regenerate_handler
        { event_history := ["A"], week_counter := 1, last_mode := some "single"
          last_discipline := some "Developer", last_weeks := 1 }
        (some "feedback")).2 (run_generation (Except.error ())) ≠
      { event_history := ["A"], week_counter := 1, last_mode := some "single"
        last_discipline := some "Developer", last_weeks := 1 } := by
  decide

/-- C4: for every non-initial request the previous-events text passed to
the generation service is the committed entries' texts in original order
joined by a blank line ("\n\n"), where for regenerate the popped entry is
first removed, and `none` is passed when no entries remain after the pop. -/
theorem prior_text_composition (t : Sim) (g0 : List HistoryEntry)
    (e : HistoryEntry) (hInv : Inv t) (hg : t.entries = g0 ++ [e])
    (fb1 fb2 fb3 : Option String) (n : Nat) :
    (continue_1_handler t.app fb1).1.previous =
      some (String.intercalate "\n\n" (t.entries.map HistoryEntry.text)) ∧
    (continue_n_handler t.app fb2 n).1.previous =
      some (String.intercalate "\n\n" (t.entries.map HistoryEntry.text)) ∧
    (regenerate_handler t.app fb3).1.previous =
      (if g0 = [] then none
       else some (String.intercalate "\n\n" (g0.map HistoryEntry.text))) := by
  obtain ⟨h1, -, -⟩ := hInv
  refine ⟨by simp [continue_1_handler, h1], by simp [continue_n_handler, h1], ?_⟩
  have hdrop : t.app.event_history.dropLast = g0.map HistoryEntry.text := by
    rw [h1, hg, List.map_append]
    simp
  by_cases hg0 : g0 = []
  · simp [regenerate_handler, hdrop, hg0]
  · have hne : ¬(g0.map HistoryEntry.text = []) := by
      simpa [List.map_eq_nil_iff] using hg0
    simp [regenerate_handler, hdrop, hg0, hne]

theorem prior_text_composition_witness :
    Inv sampleSim ∧
    sampleSim.entries =
      [⟨"E1", 1, "single", some "Business"⟩] ++ [⟨"E2", 2, "set", some "Business"⟩] ∧
    (continue_1_handler sampleSim.app none).1.previous =
      some (String.intercalate "\n\n" (sampleSim.entries.map HistoryEntry.text)) ∧
    (continue_n_handler sampleSim.app none 3).1.previous =
      some (String.intercalate "\n\n" (sampleSim.entries.map HistoryEntry.text)) ∧
    (regenerate_handler sampleSim.app (some "harder")).1.previous =
      (if ([⟨"E1", 1, "single", some "Business"⟩] : List HistoryEntry) = [] then none
       else some (String.intercalate "\n\n"
         (([⟨"E1", 1, "single", some "Business"⟩] : List HistoryEntry).map
           HistoryEntry.text))) :=
  ⟨by decide, by decide,
   prior_text_composition sampleSim [⟨"E1", 1, "single", some "Business"⟩]
     ⟨"E2", 2, "set", some "Business"⟩ (by decide) (by decide)
     none none (some "harder") 3⟩

/-- C5: when continue_by(n) is executed with n > 1 and the remembered
last_mode is "single", the issued request has mode "set", never "single". -/
theorem mode_upgrade_multiweek (s : AppState) (fb : Option String) (n : Nat)
    (hm : s.last_mode = some "single") (_hn : 1 < n) :
    (continue_n_handler s fb n).1.mode = "set" ∧
    (continue_n_handler s fb n).1.mode ≠ "single" := by
  constructor
  · simp [continue_n_handler, hm]
  · simp [continue_n_handler, hm]

theorem mode_upgrade_multiweek_witness :
    sampleState.last_mode = some "single" ∧ 1 < 4 ∧
    (continue_n_handler sampleState none 4).1.mode = "set" ∧
    (continue_n_handler sampleState none 4).1.mode ≠ "single" :=
  ⟨by decide, by decide,
   (mode_upgrade_multiweek sampleState none 4 (by decide) (by decide)).1,
   (mode_upgrade_multiweek sampleState none 4 (by decide) (by decide)).2⟩

/-- C6: every issued request has start_week = week_counter + 1 at call
time: the initial generation on an empty Timeline issues start_week = 1
(and week_counter is 0 there), continuations issue week_counter + 1, and
regenerate issues the value recomputed after the popped entry's weeks have
been subtracted from week_counter. -/
theorem start_week_of_requests (t : Sim) (hInv : Inv t) (mk : String)
    (d : Option String) (w n : Nat) (fb1 fb2 fb3 : Option String) :
    (t.app.event_history = [] →
      (initial_generation_handler t.app mk d w).1.start_week = 1 ∧
      t.app.week_counter + 1 = 1) ∧
    (continue_1_handler t.app fb1).1.start_week = t.app.week_counter + 1 ∧
    (continue_n_handler t.app fb2 n).1.start_week = t.app.week_counter + 1 ∧
    (∀ e, t.entries.getLast? = some e →
      (regenerate_handler t.app fb3).1.start_week =
        t.app.week_counter - (e.weeks : Int) + 1) := by
  obtain ⟨h1, h2, h3⟩ := hInv
  refine ⟨?_, by simp [continue_1_handler], by simp [continue_n_handler], ?_⟩
  · intro hh
    have hnil : t.entries = [] := by
      rw [hh] at h1
      exact List.map_eq_nil_iff.mp h1.symm
    have hc : t.app.week_counter = 0 := by rw [h2, hnil]; rfl
    exact ⟨rfl, by rw [hc]; decide⟩
  · intro e he
    rw [he] at h3
    obtain ⟨hw, -, -⟩ := h3
    simp [regenerate_handler, hw]

theorem start_week_of_requests_witness :
    Inv sampleSim ∧
    (continue_1_handler sampleSim.app none).1.start_week =
      sampleSim.app.week_counter + 1 ∧
    sampleSim.entries.getLast? = some ⟨"E2", 2, "set", some "Business"⟩ ∧
    (regenerate_handler sampleSim.app (some "harder")).1.start_week =
      sampleSim.app.week_counter - ((2 : Nat) : Int) + 1 :=
  ⟨by decide,
   (start_week_of_requests sampleSim (by decide) "set" (some "Business") 1 2
     none none (some "harder")).2.1,
   by decide,
   (start_week_of_requests sampleSim (by decide) "set" (some "Business") 1 2
     none none (some "harder")).2.2.2 ⟨"E2", 2, "set", some "Business"⟩ (by decide)⟩

/-- C7: a successful regenerate issues its request with the popped entry's
mode, discipline and weeks together with the supplied feedback, and commits
a state where the new entry replaces the popped one in the last position
with the same weeks count, week_counter equals its pre-call value, and all
earlier entries are unchanged. -/
theorem regenerate_success_replaces_last (t : Sim) (g0 : List HistoryEntry)
    (e : HistoryEntry) (hInv : Inv t) (hg : t.entries = g0 ++ [e])
    (fb : Option String) (r : String) :
    (regenerate_handler t.app fb).1.mode = e.mode ∧
    (regenerate_handler t.app fb).1.discipline = e.discipline ∧
    (regenerate_handler t.app fb).1.weeks = e.weeks ∧
    (regenerate_handler t.app fb).1.feedback = fb ∧
    (stepOp t (Op.regenerate fb (some r))).app.event_history =
      g0.map HistoryEntry.text ++ [r] ∧
    (stepOp t (Op.regenerate fb (some r))).app.week_counter =
      t.app.week_counter ∧
    (stepOp t (Op.regenerate fb (some r))).entries =
      g0 ++ [⟨r, e.weeks, e.mode, e.discipline⟩] := by
  obtain ⟨h1, h2, h3⟩ := hInv
  have hlast : t.entries.getLast? = some e := by
    rw [hg]
    exact List.getLast?_concat _
  rw [hlast] at h3
  obtain ⟨hw, hm, hd⟩ := h3
  have hh : t.app.event_history = g0.map HistoryEntry.text ++ [e.text] := by
    rw [h1, hg, List.map_append]
    rfl
  have he : ¬(t.app.event_history.isEmpty = true) := by
    simp [hh]
  have hdropE : t.entries.dropLast = g0 := by
    rw [hg]
    exact List.dropLast_concat
  refine ⟨by simp [regenerate_handler, hm], by simp [regenerate_handler, hd],
    by simp [regenerate_handler, hw], rfl, ?_, ?_, ?_⟩
  · simp only [stepOp, if_neg he, regenerate_handler]
    rw [hh]
    simp
  · simp only [stepOp, if_neg he, regenerate_handler]
    ring
  · simp only [stepOp, if_neg he, regenerate_handler]
    rw [hdropE, hw, hm, hd]
    rfl

theorem regenerate_success_replaces_last_witness :
    Inv sampleSim ∧
    sampleSim.entries =
      [⟨"E1", 1, "single", some "Business"⟩] ++ [⟨"E2", 2, "set", some "Business"⟩] ∧
    (regenerate_handler sampleSim.app (some "make it harder")).1.mode = "set" ∧
    (stepOp sampleSim (Op.regenerate (some "make it harder") (some "E2b"))).app.event_history =
      ([⟨"E1", 1, "single", some "Business"⟩] : List HistoryEntry).map HistoryEntry.text
        ++ ["E2b"] ∧
    (stepOp sampleSim (Op.regenerate (some "make it harder") (some "E2b"))).app.week_counter =
      sampleSim.app.week_counter ∧
    (stepOp sampleSim (Op.regenerate (some "make it harder") (some "E2b"))).entries =
      [⟨"E1", 1, "single", some "Business"⟩] ++ [⟨"E2b", 2, "set", some "Business"⟩] :=
  ⟨by decide, by decide,
   (regenerate_success_replaces_last sampleSim [⟨"E1", 1, "single", some "Business"⟩]
     ⟨"E2", 2, "set", some "Business"⟩ (by decide) (by decide)
     (some "make it harder") "E2b").1,
   (regenerate_success_replaces_last sampleSim [⟨"E1", 1, "single", some "Business"⟩]
     ⟨"E2", 2, "set", some "Business"⟩ (by decide) (by decide)
     (some "make it harder") "E2b").2.2.2.2.1,
   (regenerate_success_replaces_last sampleSim [⟨"E1", 1, "single", some "Business"⟩]
     ⟨"E2", 2, "set", some "Business"⟩ (by decide) (by decide)
     (some "make it harder") "E2b").2.2.2.2.2.1,
   (regenerate_success_replaces_last sampleSim [⟨"E1", 1, "single", some "Business"⟩]
     ⟨"E2", 2, "set", some "Business"⟩ (by decide) (by decide)
     (some "make it harder") "E2b").2.2.2.2.2.2⟩

/-- C8: the prompt builders are total functions (every Lean definition here
is total by construction) and an unknown discipline — a name absent from
DISCIPLINE_GUIDANCE, or None — yields the prompt built with empty guidance
text rather than an error. -/
theorem unknown_discipline_empty_guidance (k : String)
    (hk : DISCIPLINE_GUIDANCE.lookup k = none) (pd : String)
    (cc pe fb : Option String) (wn : Option Int) (nw : Nat) (sw : Int) :
    guidanceFor (some k) = "" ∧ guidanceFor none = "" ∧
    build_single_event_prompt pd (some k) cc pe fb wn =
      build_single_event_prompt_core pd (some k) "" cc pe fb wn ∧
    build_single_event_prompt pd none cc pe fb wn =
      build_single_event_prompt_core pd none "" cc pe fb wn ∧
    build_set_prompt pd (some k) nw cc pe fb sw =
      build_set_prompt_core pd (some k) "" nw cc pe fb sw ∧
    build_set_prompt pd none nw cc pe fb sw =
      build_set_prompt_core pd none "" nw cc pe fb sw := by
  have hg : guidanceFor (some k) = "" := by simp [guidanceFor, hk]
  refine ⟨hg, rfl, ?_, rfl, ?_, rfl⟩
  · rw [build_single_event_prompt, hg]
  · rw [build_set_prompt, hg]

theorem unknown_discipline_empty_guidance_witness :
    DISCIPLINE_GUIDANCE.lookup "Marketing" = none ∧
    guidanceFor (some "Marketing") = "" ∧
    build_single_event_prompt "readme" (some "Marketing") none none none (some 1) =
      build_single_event_prompt_core "readme" (some "Marketing") "" none none none
        (some 1) ∧
    build_set_prompt "readme" (some "Marketing") 4 none none none 1 =
      build_set_prompt_core "readme" (some "Marketing") "" 4 none none none 1 :=
  ⟨by decide,
   (unknown_discipline_empty_guidance "Marketing" (by decide) "readme"
     none none none (some 1) 4 1).1,
   (unknown_discipline_empty_guidance "Marketing" (by decide) "readme"
     none none none (some 1) 4 1).2.2.1,
   (unknown_discipline_empty_guidance "Marketing" (by decide) "readme"
     none none none (some 1) 4 1).2.2.2.2.1⟩

/-- C9: get_available_models always returns a non-empty list: a retrieval
exception yields the fallback ["llama3.2"], and a successful listing that
reports zero models yields the same fallback instead of an empty list. -/
theorem get_available_models_nonempty (r : Except Unit (List String)) :
    get_available_models r ≠ [] ∧
    get_available_models (Except.error ()) = ["llama3.2"] ∧
    get_available_models (Except.ok []) = ["llama3.2"] := by
  refine ⟨?_, rfl, rfl⟩
  cases r with
  | error e => simp [get_available_models]
  | ok ms =>
      by_cases h : ms.isEmpty = true
      · simp [get_available_models, h]
      · simp only [get_available_models, if_neg h]
        simpa [List.isEmpty_iff] using h

/-- C10: the continue_n handler upgrades mode "single" to "set" for every
requested week count n, including n = 1 (the upgrade in the source is not
conditioned on n), while the continue_1 handler preserves mode "single". -/
theorem continue_n_upgrades_all_n (s : AppState) (fb1 fb2 : Option String)
    (n : Nat) (hm : s.last_mode = some "single") (_hn : 1 ≤ n) :
    (continue_n_handler s fb1 n).1.mode = "set" ∧
    (continue_1_handler s fb2).1.mode = "single" := by
  constructor
  · simp [continue_n_handler, hm]
  · simp [continue_1_handler, hm]

theorem continue_n_upgrades_all_n_witness :
    sampleState.last_mode = some "single" ∧ 1 ≤ 1 ∧
    (continue_n_handler sampleState (some "fb") 1).1.mode = "set" ∧
    (continue_1_handler sampleState none).1.mode = "single" :=
  ⟨by decide, by decide,
   (continue_n_upgrades_all_n sampleState (some "fb") none 1 (by decide)
     (by decide)).1,
   (continue_n_upgrades_all_n sampleState (some "fb") none 1 (by decide)
     (by decide)).2⟩

end InternGen
